import Mathlib

/-!
# The `init` command of restic (`cmd/restic/cmd_init.go`)

A shallow embedding of `runInit`, `maybeReadChunkerPolynomial` and
`toJSONString`.  The command talks to collaborators that live in other
packages (the secondary repository, the target backend, the terminal, the
repository layer).  Each of them is called at most once in a run, so a run is
determined by what each call answers: the answers are collected in an `Env`,
and the embedding returns the ordered list of calls it made (`Run.trace`),
the status record it has built (`Run.status`) and what `runInit` did at its
end (`Run.result`: it returned an error value, or it panicked).

Go strings are byte strings in UTF-8; a Lean string stands for the text Go
decodes from one.  Lengths and slice bounds are counted in bytes
(`String.utf8ByteSize`), as Go counts them.  The printf-style helpers
`errors.Fatalf` and `Verbosef` are followed into `fmt` for the one way this
file calls them with run-time text: a format and no operand.
-/

namespace Restic

/-! ## Go values -/

/-- The type chunker.Pol: a polynomial over GF(2), a 64-bit unsigned value. -/
abbrev Pol := Nat

/-- Go error values. `fatalError` is the error type of `internal/errors`
(made by `errors.Fatal` and `errors.Fatalf`); `plain` is any other error.
A nil error is `none : Option GoError`. -/
inductive GoError where
  | plain (msg : String)
  | fatalError (msg : String)
deriving DecidableEq, Repr

/-- The method `Error()` of an error value. -/
def GoError.Error : GoError → String
  | .plain msg => msg
  | .fatalError msg => msg

/-- The text of the first `n` bytes of a string, given its characters: whole
characters are kept as long as their UTF-8 encodings fit in `n` bytes. When
byte `n` falls inside the encoding of a character, the bytes of it that are
left do not form a character, and Go decodes each of them as U+FFFD
(`utf8.RuneError`). -/
def takeBytes : Nat → List Char → List Char
  | _, [] => []
  | n, c :: cs =>
    if c.utf8Size ≤ n then c :: takeBytes (n - c.utf8Size) cs
    else List.replicate n (Char.ofNat 65533)

/-- Go's slice expression `s[:n]`: it panics (`none`) when `n` exceeds
`len(s)`, the number of bytes of `s`, and is the first `n` bytes of `s`
otherwise. -/
def sliceTo (s : String) (n : Nat) : Option String :=
  if n ≤ s.utf8ByteSize then some (String.mk (takeBytes n s.data)) else none

/-! ## fmt.Sprintf with a format and no operands

`errors.Fatalf(toJSONString(status))` and `Verbosef(toJSONString(status))`
pass the text as the FORMAT of a printf-style function, with no operand.
The definitions below follow `doPrintf` of Go's package fmt for that case
(`len(a) = 0`): since there is no operand, `argNum` stays 0 and every verb
other than `%%` is reported as missing or badly indexed. -/

namespace fmt

/-- The flag characters skipped after a percent sign. -/
def isFlag (c : Char) : Bool :=
  c = '#' || c = '0' || c = '+' || c = '-' || c = Char.ofNat 32

/-- A decimal digit. -/
def isDigit (c : Char) : Bool :=
  48 ≤ c.toNat && c.toNat ≤ 57

/-- The overflow guard of `parsenum`: `tooLarge(x)` is `x > 1e6`. -/
def tooLarge (x : Nat) : Bool :=
  1000000 < x

/-- The loop of `parsenum` over the text from `start` up to `end`: it returns
the number, whether a digit was read, and the text left unread. On overflow
Go returns `newi = end`, that is, nothing is left. -/
def parsenumLoop (num : Nat) (isnum : Bool) : List Char → Nat × Bool × List Char
  | [] => (num, isnum, [])
  | c :: cs =>
    if isDigit c then
      if tooLarge num then (0, false, [])
      else parsenumLoop (num * 10 + (c.toNat - 48)) true cs
    else (num, isnum, c :: cs)

/-- The function `parsenum(s, start, end)` on the text `s[start:end]`. -/
def parsenum (s : List Char) : Nat × Bool × List Char :=
  parsenumLoop 0 false s

/-- The function `parseArgNumber(format)` for a text that starts with an
opening bracket: `(index, wid, ok)` where `wid` is the number of characters
the bracketed index takes. -/
def parseArgNumber (s : List Char) : Int × Nat × Bool :=
  if s.length < 3 then (0, 1, false)
  else
    let body := s.drop 1
    let seg := body.takeWhile (fun c => c != ']')
    if seg.length = body.length then (0, 1, false)
    else
      match parsenum seg with
      | (width, ok, unread) =>
        if !ok || !unread.isEmpty then (0, seg.length + 2, false)
        else ((width : Int) - 1, seg.length + 2, true)

/-- The method `argNumber` with `numArgs = 0`: the text left, whether an index
was found, and the flag `goodArgNum`. No index is ever in range, so a
bracket always clears `goodArgNum`. -/
def argNumber (s : List Char) (goodArgNum : Bool) : List Char × Bool × Bool :=
  match s with
  | '[' :: _ =>
    match parseArgNumber s with
    | (_, wid, ok) => (s.drop wid, ok, false)
  | _ => (s, false, goodArgNum)

/-- The text written for one verb, given the text that follows the percent
sign, and the text left unread after the verb. -/
def doVerb (s : List Char) : List Char × List Char :=
  let s1 := s.dropWhile isFlag
  match argNumber s1 true with
  | (s2, afterIndex, good) =>
  let width : List Char × List Char × Bool × Bool :=
    match s2 with
    | '*' :: r => ("%!(BADWIDTH)".data, r, false, good)
    | _ =>
      match parsenum s2 with
      | (_, widPresent, r) => ([], r, afterIndex, good && !(afterIndex && widPresent))
  match width with
  | (w1, s3, afterIndex, good) =>
  let prec : List Char × List Char × Bool × Bool :=
    match s3 with
    | '.' :: r =>
      match argNumber r (good && !afterIndex) with
      | (r1, afterIndex, good) =>
        match r1 with
        | '*' :: r2 => ("%!(BADPREC)".data, r2, false, good)
        | _ =>
          match parsenum r1 with
          | (_, _, r2) => ([], r2, afterIndex, good)
    | _ => ([], s3, afterIndex, good)
  match prec with
  | (w2, s4, afterIndex, good) =>
  let last : List Char × Bool × Bool :=
    if !afterIndex then argNumber s4 good else (s4, afterIndex, good)
  match last with
  | (s5, _, good) =>
    match s5 with
    | [] => (w1 ++ w2 ++ "%!(NOVERB)".data, [])
    | verb :: r =>
      if verb = '%' then (w1 ++ w2 ++ ['%'], r)
      else if !good then (w1 ++ w2 ++ "%!".data ++ [verb] ++ "(BADINDEX)".data, r)
      else (w1 ++ w2 ++ "%!".data ++ [verb] ++ "(MISSING)".data, r)

/-- The loop of `doPrintf`: text up to a percent sign is copied, then one verb
is processed and the loop resumes after it. `skip` is the number of
characters the last verb has consumed beyond the percent sign. -/
def doPrintf : Nat → List Char → List Char
  | _, [] => []
  | skip + 1, _ :: cs => doPrintf skip cs
  | 0, c :: cs =>
    if c = '%' then
      match doVerb cs with
      | (written, unread) => written ++ doPrintf (cs.length - unread.length) cs
    else c :: doPrintf 0 cs

/-- The call `fmt.Sprintf(format)` with no operand. -/
def Sprintf (format : String) : String :=
  String.mk (doPrintf 0 format.data)

end fmt

/-! ## encoding/json for the two status records -/

namespace json

/-- The table `hex` of encoding/json. -/
def hex (n : Nat) : Char :=
  "0123456789abcdef".data.getD n '0'

/-- One character of a JSON string as `Encoder.Encode` writes it (HTML
escaping is on by default): quote and backslash get a backslash, newline,
carriage return and tab their short form, the other control characters and
the characters less-than, greater-than, ampersand, U+2028 and U+2029 a
`\u` escape, and every other character is copied. -/
def escapeChar (c : Char) : List Char :=
  let n := c.toNat
  if n = 34 || n = 92 then [Char.ofNat 92, c]
  else if n = 10 then [Char.ofNat 92, 'n']
  else if n = 13 then [Char.ofNat 92, 'r']
  else if n = 9 then [Char.ofNat 92, 't']
  else if n < 32 || n = 60 || n = 62 || n = 38 then
    [Char.ofNat 92, 'u', '0', '0', hex (n / 16), hex (n % 16)]
  else if n = 8232 || n = 8233 then
    [Char.ofNat 92, 'u', '2', '0', '2', hex (n % 16)]
  else [c]

/-- A Go string as a JSON string literal. -/
def appendString (src : String) : String :=
  "\"" ++ String.mk (src.data.flatMap escapeChar) ++ "\""

end json

/-- The values `runInit` passes to `toJSONString`: the anonymous struct with
the fields `status`, `repository`, `message` (both failure records) and the
one with `status`, `id`, `repository` (the success record). The field names
are the json tags of the source. -/
inductive StatusRecord where
  | failure (Status Repository Message : String)
  | success (Status Id Repository : String)
deriving DecidableEq, Repr

/-- The function `toJSONString`: `json.NewEncoder(buf).Encode(status)` writes
the object with its fields in declaration order, followed by a newline. -/
def toJSONString : StatusRecord → String
  | .failure status repository message =>
    "\x7b\"status\":" ++ json.appendString status ++
      ",\"repository\":" ++ json.appendString repository ++
      ",\"message\":" ++ json.appendString message ++ "\x7d\n"
  | .success status id repository =>
    "\x7b\"status\":" ++ json.appendString status ++
      ",\"id\":" ++ json.appendString id ++
      ",\"repository\":" ++ json.appendString repository ++ "\x7d\n"

/-! ## Options, collaborators and calls -/

/-- The struct `secondaryRepoOptions` embedded in `InitOptions`. This file
reads only `Repo`; `other` stands for the remaining flag values, which only
`fillSecondaryGlobalOpts` reads. -/
structure secondaryRepoOptions where
  Repo : String
  other : List (String × String)
deriving DecidableEq, Repr

/-- The struct `InitOptions`: all options of the init command. -/
structure InitOptions where
  secondary : secondaryRepoOptions
  CopyChunkerParameters : Bool
deriving DecidableEq, Repr

/-- The promoted field `opts.Repo` of the embedded struct. -/
def InitOptions.Repo (opts : InitOptions) : String :=
  opts.secondary.Repo

/-- The fields of `GlobalOptions` that `runInit` reads or writes; `ctx` is a
handle for the context and `other` stands for the fields only the
collaborators read. -/
structure GlobalOptions where
  Repo : String
  JSON : Bool
  password : String
  extended : List (String × String)
  ctx : Nat
  other : List (String × String)
deriving DecidableEq, Repr

/-- A backend handle, as returned by `create`. -/
structure Backend where
  location : String
deriving DecidableEq, Repr

/-- The fields of the repository config that this file reads. -/
structure Config where
  ID : String
  ChunkerPolynomial : Pol
deriving DecidableEq, Repr

/-- A repository value: its backend and what `Config()` returns. -/
structure Repository where
  be : Backend
  cfg : Config
deriving DecidableEq, Repr

/-- The method `Config()`. -/
def Repository.Config (s : Repository) : Config :=
  s.cfg

/-- The constructor `repository.New(be)`: a repository with no config yet. -/
def repository.New (be : Backend) : Repository :=
  ⟨be, ⟨"", 0⟩⟩

/-- What the collaborators answer in one run. `Init s ctx password pol` is the
method `s.Init(ctx, password, pol)`: an error, or the repository as it is
after the call (with the config `Init` has created). -/
structure Env where
  fillSecondaryGlobalOpts :
    secondaryRepoOptions → GlobalOptions → String → Except GoError GlobalOptions
  OpenRepository : GlobalOptions → Except GoError Repository
  ReadRepo : GlobalOptions → Except GoError String
  create : String → List (String × String) → Except GoError Backend
  ReadPasswordTwice : GlobalOptions → String → String → Except GoError String
  Init : Repository → Nat → String → Option Pol → Except GoError Repository
  StripPassword : String → String

/-- The calls a run makes to its collaborators, in order. `Verbosef` carries
the text the call formats. -/
inductive Event where
  | fillSecondaryGlobalOpts
  | OpenRepository
  | ReadRepo
  | create (repo : String)
  | ReadPasswordTwice
  | Init (password : String) (chunkerPolynomial : Option Pol)
  | Verbosef (text : String)
deriving DecidableEq, Repr

/-- What `runInit` does at its end: it returns an error value (`none` is nil)
or it panics. -/
inductive Outcome where
  | returned (err : Option GoError)
  | panicked
deriving DecidableEq, Repr

/-- One run: the calls made, the status record the run has built (the value
of the variable `status`, `none` when no branch that declares it was taken),
and the outcome. -/
structure Run where
  trace : List Event
  status : Option StatusRecord
  result : Outcome
deriving DecidableEq, Repr

/-! ## internal/errors and Verbosef -/

/-- Modelled from the spec: `errors.Fatal` is declared in internal/errors,
outside src/. It wraps its text in a fatal error. -/
def errors.Fatal (s : String) : GoError :=
  .fatalError s

/-- Modelled from the spec: `errors.Fatalf` is declared in internal/errors,
outside src/. Called with a format and no operand it wraps
`fmt.Sprintf(format)` in a fatal error. -/
def errors.Fatalf (format : String) : GoError :=
  .fatalError (fmt.Sprintf format)

/-- The text of `fmt.Sprintf("create repository at %s failed: %v\n", repo, err)`:
`%s` writes the string operand and `%v` writes `err.Error()`. -/
def createFailedText (repo : String) (err : GoError) : String :=
  "create repository at " ++ repo ++ " failed: " ++ err.Error ++ "\n"

/-- The text of
`fmt.Sprintf("create key in repository at %s failed: %v\n", repo, err)`. -/
def createKeyFailedText (repo : String) (err : GoError) : String :=
  "create key in repository at " ++ repo ++ " failed: " ++ err.Error ++ "\n"

/-- The text of `fmt.Sprintf("created restic repository %v at %s\n", id, repo)`
for two string operands. -/
def createdText (id repo : String) : String :=
  "created restic repository " ++ id ++ " at " ++ repo ++ "\n"

/-- Modelled from the spec: `Verbosef` is declared in another file of package
main, outside src/. Called with a format and no operand it formats
`fmt.Sprintf(format)`; the call is recorded with that text. -/
def Verbosef (format : String) : Event :=
  .Verbosef (fmt.Sprintf format)

/-! ## cmd_init.go -/

/-- The function `maybeReadChunkerPolynomial`: the calls it makes, and the
pair it returns (`.ok none` is `(nil, nil)`, `.ok (some pol)` is `(&pol, nil)`,
`.error err` is `(nil, err)`). -/
def maybeReadChunkerPolynomial (env : Env) (opts : InitOptions) (gopts : GlobalOptions) :
    List Event × Except GoError (Option Pol) :=
  if opts.CopyChunkerParameters then
    match env.fillSecondaryGlobalOpts opts.secondary gopts "secondary" with
    | .error err => ([.fillSecondaryGlobalOpts], .error err)
    | .ok otherGopts =>
      match env.OpenRepository otherGopts with
      | .error err => ([.fillSecondaryGlobalOpts, .OpenRepository], .error err)
      | .ok otherRepo =>
        let pol := otherRepo.Config.ChunkerPolynomial
        ([.fillSecondaryGlobalOpts, .OpenRepository], .ok (some pol))
  else if opts.Repo ≠ "" then
    ([], .error (errors.Fatal
      "Secondary repository must only be specified when copying the chunker parameters"))
  else ([], .ok none)

/-- The call `ReadPasswordTwice(gopts, "enter password for new repository: ",
"enter password again: ")` of `runInit`. -/
def readPassword (env : Env) (gopts : GlobalOptions) : Except GoError String :=
  env.ReadPasswordTwice gopts "enter password for new repository: " "enter password again: "

/-- The function `runInit`. -/
def runInit (env : Env) (opts : InitOptions) (gopts : GlobalOptions) (_args : List String) :
    Run :=
  match maybeReadChunkerPolynomial env opts gopts with
  | (t, .error err) => ⟨t, none, .returned (some err)⟩
  | (t, .ok chunkerPolynomial) =>
  match env.ReadRepo gopts with
  | .error err => ⟨t ++ [.ReadRepo], none, .returned (some err)⟩
  | .ok repo =>
  match env.create repo gopts.extended with
  | .error err =>
    if !gopts.JSON then
      ⟨t ++ [.ReadRepo, .create repo], none,
        .returned (some (errors.Fatal (createFailedText (env.StripPassword gopts.Repo) err)))⟩
    else
      let status := StatusRecord.failure "error_repository"
        (env.StripPassword gopts.Repo) err.Error
      ⟨t ++ [.ReadRepo, .create repo], some status,
        .returned (some (errors.Fatalf (toJSONString status)))⟩
  | .ok be =>
  match readPassword env gopts with
  | .error err =>
    ⟨t ++ [.ReadRepo, .create repo, .ReadPasswordTwice], none, .returned (some err)⟩
  | .ok password =>
  let gopts := { gopts with password := password }
  let s := repository.New be
  let calls := t ++ [.ReadRepo, .create repo, .ReadPasswordTwice,
    .Init gopts.password chunkerPolynomial]
  match env.Init s gopts.ctx gopts.password chunkerPolynomial with
  | .error err =>
    if !gopts.JSON then
      ⟨calls, none, .returned (some (errors.Fatal
        (createKeyFailedText (env.StripPassword gopts.Repo) err)))⟩
    else
      let status := StatusRecord.failure "error_key" (env.StripPassword gopts.Repo) err.Error
      ⟨calls, some status, .returned (some (errors.Fatalf (toJSONString status)))⟩
  | .ok s =>
  if !gopts.JSON then
    match sliceTo s.Config.ID 10 with
    | none => ⟨calls, none, .panicked⟩
    | some id =>
      ⟨calls ++ [.Verbosef (createdText id (env.StripPassword gopts.Repo)),
          Verbosef "\n",
          Verbosef "Please note that knowledge of your password is required to access\n",
          Verbosef "the repository. Losing your password means that your data is\n",
          Verbosef "irrecoverably lost.\n"],
        none, .returned none⟩
  else
    match sliceTo s.Config.ID 10 with
    | none => ⟨calls, none, .panicked⟩
    | some id =>
      let status := StatusRecord.success "success" id (env.StripPassword gopts.Repo)
      ⟨calls ++ [Verbosef (toJSONString status)], some status, .returned none⟩

/-! ## The repository method Init, as the spec describes it -/

/-- Modelled from the spec: `Repository.Init` is declared in
internal/repository, outside src/. Section 4.3, steps 2 and 3, for a location
that holds no config yet: the new config gets a fresh identifier and the
chunking polynomial handed in, "otherwise generate a fresh one"; `id` and
`fresh` are the identifier and the polynomial that the random sources
yield in the run. -/
def specInit (id : String) (fresh : Pol) (s : Repository) (_ctx : Nat) (_password : String)
    (chunkerPolynomial : Option Pol) : Except GoError Repository :=
  match chunkerPolynomial with
  | some pol => .ok { s with cfg := ⟨id, pol⟩ }
  | none => .ok { s with cfg := ⟨id, fresh⟩ }

/-- Modelled from the spec: `Repository.Init` is declared in
internal/repository, outside src/. The id of the config it creates is a
"random, high-entropy identifier" (section 3); both output branches of
`runInit` take its first 10 bytes without a guard, so whenever Init succeeds
the id it leaves has at least 10 bytes. -/
def InitGivesID (env : Env) : Prop :=
  ∀ s ctx password pol s', env.Init s ctx password pol = .ok s' →
    10 ≤ s'.Config.ID.utf8ByteSize

/-! ## Concrete runs used as witnesses -/

/-- A run environment in which every collaborator succeeds: the secondary
repository has polynomial 0x3DA3358B4DC173, the new config gets a 64-digit id
and the polynomial handed to `Init` (or 11 when none is handed). -/
def envOk : Env where
  fillSecondaryGlobalOpts := fun o g _ => .ok { g with Repo := o.Repo }
  OpenRepository := fun g => .ok ⟨⟨g.Repo⟩, ⟨"5ca1ab1e", 17349423945073011⟩⟩
  ReadRepo := fun g => .ok g.Repo
  create := fun repo _ => .ok ⟨repo⟩
  ReadPasswordTwice := fun _ _ _ => .ok "alpha"
  Init := fun s _ _ pol =>
    .ok { s with cfg :=
      ⟨"0123456789abcdef0123456789abcdef0123456789abcdef0123456789abcdef", pol.getD 11⟩ }
  StripPassword := fun s => s

/-- As `envOk`, but the two password entries differ. -/
def envMismatch : Env :=
  { envOk with ReadPasswordTwice := fun _ _ _ => .error (.fatalError "passwords do not match") }

/-- As `envOk`, but `create` fails. -/
def envCreateFails : Env :=
  { envOk with create := fun _ _ => .error (.plain "mkdir /srv: permission denied") }

/-- As `envOk`, but `Init` fails. -/
def envInitFails : Env :=
  { envOk with Init := fun _ _ _ _ => .error (.plain "config file already exists") }

/-- As `envOk`, with Init as the spec describes it: the new config gets the id
0123...cdef and, when no polynomial is handed in, the generated polynomial
11. -/
def envSpec : Env :=
  { envOk with
    Init := specInit "0123456789abcdef0123456789abcdef0123456789abcdef0123456789abcdef" 11 }

/-- Options of a plain `init`: no secondary repository, no copy. -/
def optsPlain : InitOptions :=
  ⟨⟨"", []⟩, false⟩

/-- Options of `init --repo2 /srv/old --copy-chunker-params`. -/
def optsCopy : InitOptions :=
  ⟨⟨"/srv/old", []⟩, true⟩

/-- Options of `init --repo2 /srv/old` without the copy flag. -/
def optsSecondaryOnly : InitOptions :=
  ⟨⟨"/srv/old", []⟩, false⟩

/-- Global options of `-r /srv/new`, human-readable output. -/
def goptsText : GlobalOptions :=
  ⟨"/srv/new", false, "", [], 0, []⟩

/-- Global options of `-r /srv/new --json`. -/
def goptsJSON : GlobalOptions :=
  ⟨"/srv/new", true, "", [], 0, []⟩

/-- Global options of `-r /srv/my%20repo --json`: the location holds a percent
sign. -/
def goptsPercent : GlobalOptions :=
  ⟨"/srv/my%20repo", true, "", [], 0, []⟩

/-! ## Vocabulary of the claims -/

/-- A call of the backend constructor `create`. -/
def Event.isCreate : Event → Bool
  | .create _ => true
  | _ => false

/-- A call of `ReadPasswordTwice`. -/
def Event.isReadPasswordTwice : Event → Bool
  | .ReadPasswordTwice => true
  | _ => false

/-- A call of the repository method `Init`. -/
def Event.isInit : Event → Bool
  | .Init _ _ => true
  | _ => false

/-- A call of `Verbosef`. -/
def Event.isVerbosef : Event → Bool
  | .Verbosef _ => true
  | _ => false

/-- In the list of calls `t`, every call that satisfies `q` comes after some
call that satisfies `p`. -/
def Precedes (p q : Event → Bool) (t : List Event) : Prop :=
  ∀ pre e post, t = pre ++ e :: post → q e = true → ∃ e' ∈ pre, p e' = true

/-- A decision procedure for `Precedes`: scan the calls until the first one
that satisfies `p`; no call before it may satisfy `q`. -/
def precededBy (p q : Event → Bool) : List Event → Bool
  | [] => true
  | e :: l => !q e && (p e || precededBy p q l)

/-- Every step of `runInit` succeeds, and `s` is the repository as `Init`
leaves it: `maybeReadChunkerPolynomial`, `ReadRepo`, `create`,
`ReadPasswordTwice` and `Init` all return a nil error. -/
def StepsSucceed (env : Env) (opts : InitOptions) (gopts : GlobalOptions)
    (s : Repository) : Prop :=
  ∃ t pol repo be password,
    maybeReadChunkerPolynomial env opts gopts = (t, .ok pol) ∧
    env.ReadRepo gopts = .ok repo ∧
    env.create repo gopts.extended = .ok be ∧
    readPassword env gopts = .ok password ∧
    env.Init (repository.New be) gopts.ctx password pol = .ok s

/-! ## Theorems: lemmas on the calls of one run, then the claims C1 to C10 -/

/-- The calls `maybeReadChunkerPolynomial` makes go to the secondary repository
only. -/
theorem maybeReadChunkerPolynomial_calls (env : Env) (opts : InitOptions)
    (gopts : GlobalOptions) :
    ∀ e ∈ (maybeReadChunkerPolynomial env opts gopts).1,
      e = Event.fillSecondaryGlobalOpts ∨ e = Event.OpenRepository := by
  intro e he
  unfold maybeReadChunkerPolynomial at he
  split at he
  · split at he
    · simp at he; exact Or.inl he
    · split at he <;> simpa using he
  · split at he <;> simp at he

/-- C1: when CopyChunkerParameters is false and a secondary repository
location is given (`opts.Repo` is not empty), `maybeReadChunkerPolynomial`
returns no polynomial and the fatal error "Secondary repository must only be
specified when copying the chunker parameters", whatever the global options
are, and without calling any collaborator. -/
theorem maybeReadChunkerPolynomial_secondary_without_copy (env : Env) (opts : InitOptions)
    (gopts : GlobalOptions) (hcopy : opts.CopyChunkerParameters = false)
    (hrepo : opts.Repo ≠ "") :
    maybeReadChunkerPolynomial env opts gopts =
      ([], .error (errors.Fatal
        "Secondary repository must only be specified when copying the chunker parameters")) := by
  simp [maybeReadChunkerPolynomial, hcopy, hrepo]

/-- C1 at `init --repo2 /srv/old --json` (no copy flag). -/
theorem maybeReadChunkerPolynomial_secondary_without_copy_witness :
    optsSecondaryOnly.CopyChunkerParameters = false ∧ optsSecondaryOnly.Repo ≠ "" ∧
    maybeReadChunkerPolynomial envOk optsSecondaryOnly goptsJSON =
      ([], .error (.fatalError
        "Secondary repository must only be specified when copying the chunker parameters")) :=
  ⟨rfl, by decide,
    maybeReadChunkerPolynomial_secondary_without_copy envOk optsSecondaryOnly goptsJSON rfl
      (by decide)⟩

/-- C2: whenever `maybeReadChunkerPolynomial` returns an error, `runInit`
returns that same error, having made only the calls
`maybeReadChunkerPolynomial` made: none of ReadRepo, create,
ReadPasswordTwice or Init is called. -/
theorem runInit_polynomial_error_stops (env : Env) (opts : InitOptions) (gopts : GlobalOptions)
    (args : List String) (t : List Event) (err : GoError)
    (h : maybeReadChunkerPolynomial env opts gopts = (t, .error err)) :
    (runInit env opts gopts args).result = .returned (some err) ∧
    (runInit env opts gopts args).trace = t ∧
    ∀ e ∈ (runInit env opts gopts args).trace,
      e ≠ Event.ReadRepo ∧ (∀ repo, e ≠ Event.create repo) ∧ e ≠ Event.ReadPasswordTwice ∧
        ∀ password pol, e ≠ Event.Init password pol := by
  have hrun : runInit env opts gopts args = ⟨t, none, .returned (some err)⟩ := by
    simp [runInit, h]
  refine ⟨by rw [hrun], by rw [hrun], ?_⟩
  intro e he
  rw [hrun] at he
  have hcalls := maybeReadChunkerPolynomial_calls env opts gopts e (by rw [h]; exact he)
  rcases hcalls with rfl | rfl <;> simp

/-- C2 at `init --repo2 /srv/old --json` without the copy flag: the
configuration error is returned and no call at all has been made. -/
theorem runInit_polynomial_error_stops_witness :
    (runInit envOk optsSecondaryOnly goptsJSON []).result =
      .returned (some (.fatalError
        "Secondary repository must only be specified when copying the chunker parameters")) ∧
    (runInit envOk optsSecondaryOnly goptsJSON []).trace = [] :=
  have h := runInit_polynomial_error_stops envOk optsSecondaryOnly goptsJSON [] []
    (.fatalError
      "Secondary repository must only be specified when copying the chunker parameters") rfl
  ⟨h.1, h.2.1⟩

/-- The paths of `runInit`: every run takes exactly one of them, named after
the step that ends it. -/
theorem runInit_cases (env : Env) (opts : InitOptions) (gopts : GlobalOptions)
    (args : List String) :
    (∃ t err, maybeReadChunkerPolynomial env opts gopts = (t, .error err) ∧
      runInit env opts gopts args = ⟨t, none, .returned (some err)⟩) ∨
    (∃ t pol err, maybeReadChunkerPolynomial env opts gopts = (t, .ok pol) ∧
      env.ReadRepo gopts = .error err ∧
      runInit env opts gopts args = ⟨t ++ [.ReadRepo], none, .returned (some err)⟩) ∨
    (∃ t pol repo err, maybeReadChunkerPolynomial env opts gopts = (t, .ok pol) ∧
      env.ReadRepo gopts = .ok repo ∧ env.create repo gopts.extended = .error err ∧
      gopts.JSON = false ∧
      runInit env opts gopts args = ⟨t ++ [.ReadRepo, .create repo], none,
        .returned (some (errors.Fatal
          (createFailedText (env.StripPassword gopts.Repo) err)))⟩) ∨
    (∃ t pol repo err, maybeReadChunkerPolynomial env opts gopts = (t, .ok pol) ∧
      env.ReadRepo gopts = .ok repo ∧ env.create repo gopts.extended = .error err ∧
      gopts.JSON = true ∧
      runInit env opts gopts args = ⟨t ++ [.ReadRepo, .create repo],
        some (.failure "error_repository" (env.StripPassword gopts.Repo) err.Error),
        .returned (some (errors.Fatalf (toJSONString
          (.failure "error_repository" (env.StripPassword gopts.Repo) err.Error))))⟩) ∨
    (∃ t pol repo be err, maybeReadChunkerPolynomial env opts gopts = (t, .ok pol) ∧
      env.ReadRepo gopts = .ok repo ∧ env.create repo gopts.extended = .ok be ∧
      readPassword env gopts = .error err ∧
      runInit env opts gopts args = ⟨t ++ [.ReadRepo, .create repo, .ReadPasswordTwice], none,
        .returned (some err)⟩) ∨
    (∃ t pol repo be password err, maybeReadChunkerPolynomial env opts gopts = (t, .ok pol) ∧
      env.ReadRepo gopts = .ok repo ∧ env.create repo gopts.extended = .ok be ∧
      readPassword env gopts = .ok password ∧
      env.Init (repository.New be) gopts.ctx password pol = .error err ∧
      gopts.JSON = false ∧
      runInit env opts gopts args =
        ⟨t ++ [.ReadRepo, .create repo, .ReadPasswordTwice, .Init password pol], none,
          .returned (some (errors.Fatal
            (createKeyFailedText (env.StripPassword gopts.Repo) err)))⟩) ∨
    (∃ t pol repo be password err, maybeReadChunkerPolynomial env opts gopts = (t, .ok pol) ∧
      env.ReadRepo gopts = .ok repo ∧ env.create repo gopts.extended = .ok be ∧
      readPassword env gopts = .ok password ∧
      env.Init (repository.New be) gopts.ctx password pol = .error err ∧
      gopts.JSON = true ∧
      runInit env opts gopts args =
        ⟨t ++ [.ReadRepo, .create repo, .ReadPasswordTwice, .Init password pol],
          some (.failure "error_key" (env.StripPassword gopts.Repo) err.Error),
          .returned (some (errors.Fatalf (toJSONString
            (.failure "error_key" (env.StripPassword gopts.Repo) err.Error))))⟩) ∨
    (∃ t pol repo be password s, maybeReadChunkerPolynomial env opts gopts = (t, .ok pol) ∧
      env.ReadRepo gopts = .ok repo ∧ env.create repo gopts.extended = .ok be ∧
      readPassword env gopts = .ok password ∧
      env.Init (repository.New be) gopts.ctx password pol = .ok s ∧
      sliceTo s.Config.ID 10 = none ∧
      runInit env opts gopts args =
        ⟨t ++ [.ReadRepo, .create repo, .ReadPasswordTwice, .Init password pol], none,
          .panicked⟩) ∨
    (∃ t pol repo be password s id, maybeReadChunkerPolynomial env opts gopts = (t, .ok pol) ∧
      env.ReadRepo gopts = .ok repo ∧ env.create repo gopts.extended = .ok be ∧
      readPassword env gopts = .ok password ∧
      env.Init (repository.New be) gopts.ctx password pol = .ok s ∧
      sliceTo s.Config.ID 10 = some id ∧ gopts.JSON = false ∧
      runInit env opts gopts args =
        ⟨t ++ [.ReadRepo, .create repo, .ReadPasswordTwice, .Init password pol] ++
            [.Verbosef (createdText id (env.StripPassword gopts.Repo)),
              Verbosef "\n",
              Verbosef "Please note that knowledge of your password is required to access\n",
              Verbosef "the repository. Losing your password means that your data is\n",
              Verbosef "irrecoverably lost.\n"],
          none, .returned none⟩) ∨
    (∃ t pol repo be password s id, maybeReadChunkerPolynomial env opts gopts = (t, .ok pol) ∧
      env.ReadRepo gopts = .ok repo ∧ env.create repo gopts.extended = .ok be ∧
      readPassword env gopts = .ok password ∧
      env.Init (repository.New be) gopts.ctx password pol = .ok s ∧
      sliceTo s.Config.ID 10 = some id ∧ gopts.JSON = true ∧
      runInit env opts gopts args =
        ⟨t ++ [.ReadRepo, .create repo, .ReadPasswordTwice, .Init password pol] ++
            [Verbosef (toJSONString
              (.success "success" id (env.StripPassword gopts.Repo)))],
          some (.success "success" id (env.StripPassword gopts.Repo)),
          .returned none⟩) := by
  rcases hm : maybeReadChunkerPolynomial env opts gopts with ⟨t, err | pol⟩
  · exact Or.inl ⟨t, err, rfl, by simp [runInit, hm]⟩
  right
  cases hr : env.ReadRepo gopts with
  | error err => exact Or.inl ⟨t, pol, err, rfl, rfl, by simp [runInit, hm, hr]⟩
  | ok repo =>
  right
  cases hc : env.create repo gopts.extended with
  | error err =>
    cases hj : gopts.JSON with
    | false =>
      exact Or.inl ⟨t, pol, repo, err, rfl, rfl, hc, rfl, by simp [runInit, hm, hr, hc, hj]⟩
    | true =>
      exact Or.inr (Or.inl
        ⟨t, pol, repo, err, rfl, rfl, hc, rfl, by simp [runInit, hm, hr, hc, hj]⟩)
  | ok be =>
  right; right
  cases hp : readPassword env gopts with
  | error err =>
    exact Or.inl ⟨t, pol, repo, be, err, rfl, rfl, hc, rfl, by simp [runInit, hm, hr, hc, hp]⟩
  | ok password =>
  right
  cases hi : env.Init (repository.New be) gopts.ctx password pol with
  | error err =>
    cases hj : gopts.JSON with
    | false =>
      exact Or.inl ⟨t, pol, repo, be, password, err, rfl, rfl, hc, rfl, hi, rfl,
        by simp [runInit, hm, hr, hc, hp, hi, hj]⟩
    | true =>
      exact Or.inr (Or.inl ⟨t, pol, repo, be, password, err, rfl, rfl, hc, rfl, hi, rfl,
        by simp [runInit, hm, hr, hc, hp, hi, hj]⟩)
  | ok s =>
  right; right
  cases hs : sliceTo s.Config.ID 10 with
  | none =>
    exact Or.inl ⟨t, pol, repo, be, password, s, rfl, rfl, hc, rfl, hi, hs,
      by cases hj : gopts.JSON <;> simp [runInit, hm, hr, hc, hp, hi, hj, hs]⟩
  | some id =>
    right
    cases hj : gopts.JSON with
    | false =>
      exact Or.inl ⟨t, pol, repo, be, password, s, id, rfl, rfl, hc, rfl, hi, hs, rfl,
        by simp [runInit, hm, hr, hc, hp, hi, hj, hs]⟩
    | true =>
      exact Or.inr ⟨t, pol, repo, be, password, s, id, rfl, rfl, hc, rfl, hi, hs, rfl,
        by simp [runInit, hm, hr, hc, hp, hi, hj, hs]⟩

/-- The calls of `maybeReadChunkerPolynomial` are neither create,
ReadPasswordTwice, Init nor Verbosef calls. -/
theorem maybeReadChunkerPolynomial_calls_kind (env : Env) (opts : InitOptions)
    (gopts : GlobalOptions) (t : List Event) (r : Except GoError (Option Pol))
    (h : maybeReadChunkerPolynomial env opts gopts = (t, r)) :
    ∀ e ∈ t, e.isCreate = false ∧ e.isReadPasswordTwice = false ∧ e.isInit = false ∧
      e.isVerbosef = false ∧ e ≠ Event.ReadPasswordTwice ∧
      ∀ password pol, e ≠ Event.Init password pol := by
  intro e he
  have hcalls := maybeReadChunkerPolynomial_calls env opts gopts e (by rw [h]; exact he)
  rcases hcalls with rfl | rfl <;> simp [Event.isCreate, Event.isReadPasswordTwice,
    Event.isInit, Event.isVerbosef]

/-- Every Init call of a run carries the polynomial
`maybeReadChunkerPolynomial` has returned. -/
theorem runInit_init_polynomial (env : Env) (opts : InitOptions) (gopts : GlobalOptions)
    (args : List String) (password : String) (pol : Option Pol)
    (h : Event.Init password pol ∈ (runInit env opts gopts args).trace) :
    (maybeReadChunkerPolynomial env opts gopts).2 = .ok pol := by
  have hk := maybeReadChunkerPolynomial_calls_kind env opts gopts
  rcases runInit_cases env opts gopts args with
    ⟨t, err, hm, hrun⟩ | ⟨t, p, err, hm, _, hrun⟩ | ⟨t, p, repo, err, hm, _, _, _, hrun⟩ |
    ⟨t, p, repo, err, hm, _, _, _, hrun⟩ | ⟨t, p, repo, be, err, hm, _, _, _, hrun⟩ |
    ⟨t, p, repo, be, pw, err, hm, _, _, _, _, _, hrun⟩ |
    ⟨t, p, repo, be, pw, err, hm, _, _, _, _, _, hrun⟩ |
    ⟨t, p, repo, be, pw, s, hm, _, _, _, _, _, hrun⟩ |
    ⟨t, p, repo, be, pw, s, id, hm, _, _, _, _, _, _, hrun⟩ |
    ⟨t, p, repo, be, pw, s, id, hm, _, _, _, _, _, _, hrun⟩ <;>
  · have hnot : Event.Init password pol ∉ t := fun hmem =>
      (hk t _ hm _ hmem).2.2.2.2.2 password pol rfl
    rw [hrun] at h
    simp [hnot, Verbosef] at h
    try simp [hm, h.2]

/-- When the three steps before it succeed, Init is called with the password
read and the polynomial `maybeReadChunkerPolynomial` has returned. -/
theorem runInit_calls_init (env : Env) (opts : InitOptions) (gopts : GlobalOptions)
    (args : List String) (t : List Event) (pol : Option Pol) (repo : String) (be : Backend)
    (password : String)
    (hpol : maybeReadChunkerPolynomial env opts gopts = (t, .ok pol))
    (hrepo : env.ReadRepo gopts = .ok repo)
    (hbe : env.create repo gopts.extended = .ok be)
    (hpw : readPassword env gopts = .ok password) :
    Event.Init password pol ∈ (runInit env opts gopts args).trace := by
  rcases runInit_cases env opts gopts args with
    ⟨t, err, hm, hrun⟩ | ⟨t, p, err, hm, h1, hrun⟩ | ⟨t, p, repo, err, hm, h1, h2, _, hrun⟩ |
    ⟨t, p, repo, err, hm, h1, h2, _, hrun⟩ | ⟨t, p, repo, be, err, hm, h1, h2, h3, hrun⟩ |
    ⟨t, p, repo, be, pw, err, hm, h1, h2, h3, _, _, hrun⟩ |
    ⟨t, p, repo, be, pw, err, hm, h1, h2, h3, _, _, hrun⟩ |
    ⟨t, p, repo, be, pw, s, hm, h1, h2, h3, _, _, hrun⟩ |
    ⟨t, p, repo, be, pw, s, id, hm, h1, h2, h3, _, _, _, hrun⟩ |
    ⟨t, p, repo, be, pw, s, id, hm, h1, h2, h3, _, _, _, hrun⟩ <;>
  simp_all

/-- When the three steps before it succeed, the outcome of `runInit` is decided
by what Init answers at the repository made from the new backend, the
context, the password read and the polynomial `maybeReadChunkerPolynomial`
has returned: its error is wrapped and returned, and after its success
`runInit` returns nil (or panics on an id of less than 10 bytes). -/
theorem runInit_result_of_init (env : Env) (opts : InitOptions) (gopts : GlobalOptions)
    (args : List String) (t : List Event) (pol : Option Pol) (repo : String) (be : Backend)
    (password : String)
    (hpol : maybeReadChunkerPolynomial env opts gopts = (t, .ok pol))
    (hrepo : env.ReadRepo gopts = .ok repo)
    (hbe : env.create repo gopts.extended = .ok be)
    (hpw : readPassword env gopts = .ok password) :
    (∀ e, env.Init (repository.New be) gopts.ctx password pol = .error e →
      (runInit env opts gopts args).result = .returned (some
        (if gopts.JSON then errors.Fatalf (toJSONString
            (.failure "error_key" (env.StripPassword gopts.Repo) e.Error))
          else errors.Fatal (createKeyFailedText (env.StripPassword gopts.Repo) e)))) ∧
    (∀ s, env.Init (repository.New be) gopts.ctx password pol = .ok s →
      (runInit env opts gopts args).result =
        if 10 ≤ s.Config.ID.utf8ByteSize then .returned none else .panicked) := by
  constructor
  · intro e hi
    cases hj : gopts.JSON <;> simp [runInit, hpol, hrepo, hbe, hpw, hi, hj]
  · intro s hi
    by_cases hl : 10 ≤ s.Config.ID.utf8ByteSize
    · cases hj : gopts.JSON <;> simp [runInit, hpol, hrepo, hbe, hpw, hi, hj, sliceTo, hl]
    · cases hj : gopts.JSON <;> simp [runInit, hpol, hrepo, hbe, hpw, hi, hj, sliceTo, hl]

/-- C3: polynomial resolution. If CopyChunkerParameters is set and the
secondary repository opens, `maybeReadChunkerPolynomial` returns the
ChunkerPolynomial of the secondary repository's config, and that polynomial,
verbatim, is the argument `runInit` hands to Init: every Init call recorded
carries it, Init is called with it as soon as ReadRepo, create and
ReadPasswordTwice succeed, and the outcome of the run is decided by what
Init answers at exactly that polynomial (an error is wrapped and returned, a
success makes the run return nil). If CopyChunkerParameters is not set and no
secondary location is given, `maybeReadChunkerPolynomial` returns (nil, nil)
without any call, and the same holds with Init handed no polynomial (nil).
With Init as the spec describes it, the config Init creates then holds the
copied polynomial in the first case and a freshly generated one in the
second. -/
theorem runInit_polynomial_resolution (env : Env) (opts : InitOptions) (gopts : GlobalOptions)
    (args : List String) :
    (∀ otherGopts otherRepo, opts.CopyChunkerParameters = true →
      env.fillSecondaryGlobalOpts opts.secondary gopts "secondary" = .ok otherGopts →
      env.OpenRepository otherGopts = .ok otherRepo →
      (maybeReadChunkerPolynomial env opts gopts).2 =
        .ok (some otherRepo.Config.ChunkerPolynomial) ∧
      (∀ password pol, Event.Init password pol ∈ (runInit env opts gopts args).trace →
        pol = some otherRepo.Config.ChunkerPolynomial) ∧
      (∀ repo be password, env.ReadRepo gopts = .ok repo →
        env.create repo gopts.extended = .ok be → readPassword env gopts = .ok password →
        Event.Init password (some otherRepo.Config.ChunkerPolynomial) ∈
          (runInit env opts gopts args).trace ∧
        (∀ e, env.Init (repository.New be) gopts.ctx password
            (some otherRepo.Config.ChunkerPolynomial) = .error e →
          (runInit env opts gopts args).result = .returned (some
            (if gopts.JSON then errors.Fatalf (toJSONString
                (.failure "error_key" (env.StripPassword gopts.Repo) e.Error))
              else errors.Fatal (createKeyFailedText (env.StripPassword gopts.Repo) e)))) ∧
        (∀ s, env.Init (repository.New be) gopts.ctx password
            (some otherRepo.Config.ChunkerPolynomial) = .ok s →
          (runInit env opts gopts args).result =
            if 10 ≤ s.Config.ID.utf8ByteSize then .returned none else .panicked) ∧
        (∀ id fresh, env.Init = specInit id fresh → 10 ≤ id.utf8ByteSize →
          (runInit env opts gopts args).result = .returned none ∧
          env.Init (repository.New be) gopts.ctx password
              (some otherRepo.Config.ChunkerPolynomial) =
            .ok ⟨be, ⟨id, otherRepo.Config.ChunkerPolynomial⟩⟩))) ∧
    (opts.CopyChunkerParameters = false → opts.Repo = "" →
      maybeReadChunkerPolynomial env opts gopts = ([], .ok none) ∧
      (∀ password pol, Event.Init password pol ∈ (runInit env opts gopts args).trace →
        pol = none) ∧
      (∀ repo be password, env.ReadRepo gopts = .ok repo →
        env.create repo gopts.extended = .ok be → readPassword env gopts = .ok password →
        Event.Init password none ∈ (runInit env opts gopts args).trace ∧
        (∀ e, env.Init (repository.New be) gopts.ctx password none = .error e →
          (runInit env opts gopts args).result = .returned (some
            (if gopts.JSON then errors.Fatalf (toJSONString
                (.failure "error_key" (env.StripPassword gopts.Repo) e.Error))
              else errors.Fatal (createKeyFailedText (env.StripPassword gopts.Repo) e)))) ∧
        (∀ s, env.Init (repository.New be) gopts.ctx password none = .ok s →
          (runInit env opts gopts args).result =
            if 10 ≤ s.Config.ID.utf8ByteSize then .returned none else .panicked) ∧
        (∀ id fresh, env.Init = specInit id fresh → 10 ≤ id.utf8ByteSize →
          (runInit env opts gopts args).result = .returned none ∧
          env.Init (repository.New be) gopts.ctx password none =
            .ok ⟨be, ⟨id, fresh⟩⟩))) := by
  constructor
  · intro otherGopts otherRepo hcopy hfill hopen
    have hm : maybeReadChunkerPolynomial env opts gopts =
        ([.fillSecondaryGlobalOpts, .OpenRepository],
          .ok (some otherRepo.Config.ChunkerPolynomial)) := by
      simp [maybeReadChunkerPolynomial, hcopy, hfill, hopen]
    refine ⟨by rw [hm], ?_, ?_⟩
    · intro password pol hmem
      have := runInit_init_polynomial env opts gopts args password pol hmem
      rw [hm] at this
      simpa using this.symm
    · intro repo be password hrepo hbe hpw
      have hres := runInit_result_of_init env opts gopts args _ _ repo be password
        hm hrepo hbe hpw
      refine ⟨runInit_calls_init env opts gopts args _ _ repo be password hm hrepo hbe hpw,
        hres.1, hres.2, ?_⟩
      intro id fresh hspec hlen
      have hcall : env.Init (repository.New be) gopts.ctx password
          (some otherRepo.Config.ChunkerPolynomial) =
            .ok ⟨be, ⟨id, otherRepo.Config.ChunkerPolynomial⟩⟩ := by
        rw [hspec]; rfl
      refine ⟨?_, hcall⟩
      rw [hres.2 _ hcall]
      exact if_pos hlen
  · intro hcopy hrepo2
    have hm : maybeReadChunkerPolynomial env opts gopts = ([], .ok none) := by
      simp [maybeReadChunkerPolynomial, hcopy, hrepo2]
    refine ⟨hm, ?_, ?_⟩
    · intro password pol hmem
      have := runInit_init_polynomial env opts gopts args password pol hmem
      rw [hm] at this
      simpa using this.symm
    · intro repo be password hrepo hbe hpw
      have hres := runInit_result_of_init env opts gopts args _ _ repo be password
        hm hrepo hbe hpw
      refine ⟨runInit_calls_init env opts gopts args _ _ repo be password hm hrepo hbe hpw,
        hres.1, hres.2, ?_⟩
      intro id fresh hspec hlen
      have hcall : env.Init (repository.New be) gopts.ctx password none =
          .ok ⟨be, ⟨id, fresh⟩⟩ := by
        rw [hspec]; rfl
      refine ⟨?_, hcall⟩
      rw [hres.2 _ hcall]
      exact if_pos hlen

/-- C3 at `init --repo2 /srv/old --copy-chunker-params` and at a plain `init`,
with Init as the spec describes it (new id 0123...cdef, generator yielding the
polynomial 11): Init is handed the polynomial 0x3DA3358B4DC173 of the
secondary repository in the first run and creates a config that holds it;
it is handed no polynomial in the second run and creates a config that
holds the generated one. Both runs return nil. -/
theorem runInit_polynomial_resolution_witness :
    (Event.Init "alpha" (some 17349423945073011) ∈
        (runInit envSpec optsCopy goptsText []).trace ∧
      (runInit envSpec optsCopy goptsText []).result = .returned none ∧
      envSpec.Init (repository.New ⟨"/srv/new"⟩) goptsText.ctx "alpha"
          (some 17349423945073011) =
        .ok ⟨⟨"/srv/new"⟩,
          ⟨"0123456789abcdef0123456789abcdef0123456789abcdef0123456789abcdef",
            17349423945073011⟩⟩) ∧
    (Event.Init "alpha" none ∈ (runInit envSpec optsPlain goptsText []).trace ∧
      (runInit envSpec optsPlain goptsText []).result = .returned none ∧
      envSpec.Init (repository.New ⟨"/srv/new"⟩) goptsText.ctx "alpha" none =
        .ok ⟨⟨"/srv/new"⟩,
          ⟨"0123456789abcdef0123456789abcdef0123456789abcdef0123456789abcdef", 11⟩⟩) :=
  have hcopy := ((runInit_polynomial_resolution envSpec optsCopy goptsText []).1
    { goptsText with Repo := "/srv/old" } ⟨⟨"/srv/old"⟩, ⟨"5ca1ab1e", 17349423945073011⟩⟩
    rfl rfl rfl).2.2 "/srv/new" ⟨"/srv/new"⟩ "alpha" rfl rfl rfl
  have hplain := ((runInit_polynomial_resolution envSpec optsPlain goptsText []).2
    rfl rfl).2.2 "/srv/new" ⟨"/srv/new"⟩ "alpha" rfl rfl rfl
  ⟨⟨hcopy.1, hcopy.2.2.2 _ 11 rfl (by decide)⟩, hplain.1, hplain.2.2.2 _ 11 rfl (by decide)⟩

/-- The slice `s[:n]` is defined exactly when `s` has at least `n` bytes. -/
theorem sliceTo_isSome (s : String) (n : Nat) :
    (∃ id, sliceTo s n = some id) ↔ n ≤ s.utf8ByteSize := by
  unfold sliceTo
  split <;> simp_all

/-- When every step succeeds, `runInit` returns nil if the id of the new config
has at least 10 bytes and panics otherwise. -/
theorem runInit_result_of_steps (env : Env) (opts : InitOptions) (gopts : GlobalOptions)
    (args : List String) (s : Repository) (h : StepsSucceed env opts gopts s) :
    (runInit env opts gopts args).result =
      if 10 ≤ s.Config.ID.utf8ByteSize then .returned none else .panicked := by
  obtain ⟨t, pol, repo, be, password, hm, hr, hc, hp, hi⟩ := h
  by_cases hl : 10 ≤ s.Config.ID.utf8ByteSize
  · cases hj : gopts.JSON <;> simp [runInit, hm, hr, hc, hp, hi, hj, sliceTo, hl]
  · cases hj : gopts.JSON <;> simp [runInit, hm, hr, hc, hp, hi, hj, sliceTo, hl]

/-- When some step fails, `runInit` returns a non-nil error. -/
theorem runInit_result_of_failure (env : Env) (opts : InitOptions) (gopts : GlobalOptions)
    (args : List String) (h : ¬ ∃ s, StepsSucceed env opts gopts s) :
    ∃ err, (runInit env opts gopts args).result = .returned (some err) := by
  rcases runInit_cases env opts gopts args with
    ⟨t, err, hm, hrun⟩ | ⟨t, p, err, hm, h1, hrun⟩ | ⟨t, p, repo, err, hm, h1, h2, _, hrun⟩ |
    ⟨t, p, repo, err, hm, h1, h2, _, hrun⟩ | ⟨t, p, repo, be, err, hm, h1, h2, h3, hrun⟩ |
    ⟨t, p, repo, be, pw, err, hm, h1, h2, h3, h4, _, hrun⟩ |
    ⟨t, p, repo, be, pw, err, hm, h1, h2, h3, h4, _, hrun⟩ |
    ⟨t, p, repo, be, pw, s, hm, h1, h2, h3, h4, h5, hrun⟩ |
    ⟨t, p, repo, be, pw, s, id, hm, h1, h2, h3, h4, h5, _, hrun⟩ |
    ⟨t, p, repo, be, pw, s, id, hm, h1, h2, h3, h4, h5, _, hrun⟩
  all_goals first
    | exact ⟨_, by rw [hrun]⟩
    | exact absurd ⟨s, t, p, repo, be, pw, hm, h1, h2, h3, h4⟩ h

/-- The method Init of `envOk` and of the environments made from it by
changing another collaborator leaves a 64-byte id. -/
theorem envOk_initGivesID (env : Env) (h : env.Init = envOk.Init) : InitGivesID env := by
  intro s ctx password pol s' hs
  rw [h] at hs
  simp only [envOk, Except.ok.injEq] at hs
  subst hs
  exact (by decide :
    10 ≤ "0123456789abcdef0123456789abcdef0123456789abcdef0123456789abcdef".utf8ByteSize)

/-- C4: for a repository layer whose Init, when it succeeds, leaves a config
id of at least 10 bytes, `runInit` returns a nil error (exit status 0) if and
only if every one of its steps succeeds: maybeReadChunkerPolynomial,
ReadRepo, create, ReadPasswordTwice and Init; and if any of them fails,
`runInit` returns a non-nil error. Both hold in JSON and in non-JSON mode:
the theorem is for every value of `gopts.JSON`. -/
theorem runInit_nil_iff_steps (env : Env) (opts : InitOptions) (gopts : GlobalOptions)
    (args : List String) (hid : InitGivesID env) :
    ((runInit env opts gopts args).result = .returned none ↔
      ∃ s, StepsSucceed env opts gopts s) ∧
    ((¬ ∃ s, StepsSucceed env opts gopts s) →
      ∃ err, (runInit env opts gopts args).result = .returned (some err)) := by
  refine ⟨⟨fun hnil => ?_, ?_⟩, runInit_result_of_failure env opts gopts args⟩
  · by_contra hs
    obtain ⟨err, herr⟩ := runInit_result_of_failure env opts gopts args hs
    rw [hnil] at herr
    cases herr
  · rintro ⟨s, hs⟩
    have hl : 10 ≤ s.Config.ID.utf8ByteSize := by
      obtain ⟨t, pol, repo, be, password, _, _, _, _, hi⟩ := hs
      exact hid _ _ _ _ _ hi
    rw [runInit_result_of_steps env opts gopts args s hs, if_pos hl]

/-- C4 at four runs: a plain `init` returns nil in JSON and in text mode, and
with mismatching passwords it returns a non-nil error in both modes. -/
theorem runInit_nil_iff_steps_witness :
    InitGivesID envOk ∧ InitGivesID envMismatch ∧
    (runInit envOk optsPlain goptsJSON []).result = .returned none ∧
    (runInit envOk optsPlain goptsText []).result = .returned none ∧
    (∃ err, (runInit envMismatch optsPlain goptsJSON []).result = .returned (some err)) ∧
    ∃ err, (runInit envMismatch optsPlain goptsText []).result = .returned (some err) :=
  ⟨envOk_initGivesID envOk rfl, envOk_initGivesID envMismatch rfl,
    (runInit_nil_iff_steps envOk optsPlain goptsJSON [] (envOk_initGivesID envOk rfl)).1.2
      ⟨⟨⟨"/srv/new"⟩,
          ⟨"0123456789abcdef0123456789abcdef0123456789abcdef0123456789abcdef", 11⟩⟩,
        [], none, "/srv/new", ⟨"/srv/new"⟩, "alpha", rfl, rfl, rfl, rfl, rfl⟩,
    (runInit_nil_iff_steps envOk optsPlain goptsText [] (envOk_initGivesID envOk rfl)).1.2
      ⟨⟨⟨"/srv/new"⟩,
          ⟨"0123456789abcdef0123456789abcdef0123456789abcdef0123456789abcdef", 11⟩⟩,
        [], none, "/srv/new", ⟨"/srv/new"⟩, "alpha", rfl, rfl, rfl, rfl, rfl⟩,
    (runInit_nil_iff_steps envMismatch optsPlain goptsJSON []
      (envOk_initGivesID envMismatch rfl)).2 (by
        rintro ⟨s, t, pol, repo, be, password, _, _, _, hp, _⟩
        cases hp),
    (runInit_nil_iff_steps envMismatch optsPlain goptsText []
      (envOk_initGivesID envMismatch rfl)).2 (by
        rintro ⟨s, t, pol, repo, be, password, _, _, _, hp, _⟩
        cases hp)⟩

/-- C5: whenever ReadPasswordTwice fails with an error, `runInit` never calls
Init (so it writes neither a key record nor a config), and in every run that
reaches the ReadPasswordTwice call `runInit` returns that same error. -/
theorem runInit_password_error_stops (env : Env) (opts : InitOptions) (gopts : GlobalOptions)
    (args : List String) (err : GoError) (h : readPassword env gopts = .error err) :
    (∀ password pol, Event.Init password pol ∉ (runInit env opts gopts args).trace) ∧
    (Event.ReadPasswordTwice ∈ (runInit env opts gopts args).trace →
      (runInit env opts gopts args).result = .returned (some err)) := by
  have hk := maybeReadChunkerPolynomial_calls_kind env opts gopts
  rcases runInit_cases env opts gopts args with
    ⟨t, e, hm, hrun⟩ | ⟨t, p, e, hm, h1, hrun⟩ | ⟨t, p, repo, e, hm, h1, h2, _, hrun⟩ |
    ⟨t, p, repo, e, hm, h1, h2, _, hrun⟩ | ⟨t, p, repo, be, e, hm, h1, h2, h3, hrun⟩ |
    ⟨t, p, repo, be, pw, e, hm, h1, h2, h3, h4, _, hrun⟩ |
    ⟨t, p, repo, be, pw, e, hm, h1, h2, h3, h4, _, hrun⟩ |
    ⟨t, p, repo, be, pw, s, hm, h1, h2, h3, h4, h5, hrun⟩ |
    ⟨t, p, repo, be, pw, s, id, hm, h1, h2, h3, h4, h5, _, hrun⟩ |
    ⟨t, p, repo, be, pw, s, id, hm, h1, h2, h3, h4, h5, _, hrun⟩
  all_goals first
    | (rw [h] at h3; cases h3; done)
    | (have hnoInit : ∀ password pol, Event.Init password pol ∉ t := fun password pol hmem =>
        (hk t _ hm _ hmem).2.2.2.2.2 password pol rfl
       have hnoRead : Event.ReadPasswordTwice ∉ t := fun hmem =>
        (hk t _ hm _ hmem).2.2.2.2.1 rfl
       rw [hrun]
       simp_all)

/-- C5 at first entry "alpha", confirmation "beta": ReadPasswordTwice is
reached and fails, `runInit` returns its error and Init is never called. -/
theorem runInit_password_error_stops_witness :
    Event.ReadPasswordTwice ∈ (runInit envMismatch optsPlain goptsText []).trace ∧
    (runInit envMismatch optsPlain goptsText []).result =
      .returned (some (.fatalError "passwords do not match")) ∧
    ∀ password pol, Event.Init password pol ∉ (runInit envMismatch optsPlain goptsText []).trace :=
  have h := runInit_password_error_stops envMismatch optsPlain goptsText []
    (.fatalError "passwords do not match") rfl
  ⟨by decide, h.2 (by decide), h.1⟩

/-- The scan `precededBy` is sound for `Precedes`. -/
theorem precedes_of_precededBy (p q : Event → Bool) (t : List Event)
    (h : precededBy p q t = true) : Precedes p q t := by
  induction t with
  | nil =>
    intro pre e post heq
    simp at heq
  | cons x l ih =>
    simp only [precededBy, Bool.and_eq_true, Bool.not_eq_true', Bool.or_eq_true] at h
    intro pre e post heq hq
    cases pre with
    | nil =>
      simp only [List.nil_append, List.cons.injEq] at heq
      rw [← heq.1, h.1] at hq
      cases hq
    | cons y pre =>
      simp only [List.cons_append, List.cons.injEq] at heq
      obtain ⟨rfl, rfl⟩ := heq
      rcases h.2 with hp | hl
      · exact ⟨x, by simp, hp⟩
      · obtain ⟨e', he', hpe'⟩ := ih hl pre e post rfl hq
        exact ⟨e', by simp [he'], hpe'⟩

/-- Calls that satisfy neither predicate do not change the scan. -/
theorem precededBy_append (p q : Event → Bool) (t l : List Event)
    (h : ∀ e ∈ t, p e = false ∧ q e = false) :
    precededBy p q (t ++ l) = precededBy p q l := by
  induction t with
  | nil => rfl
  | cons x t ih =>
    have hx := h x (by simp)
    have ht : ∀ e ∈ t, p e = false ∧ q e = false := fun e he => h e (by simp [he])
    simp [precededBy, hx.1, hx.2, ih ht]

/-- After calls that satisfy neither predicate, a list that passes the scan
keeps the order. -/
theorem precedes_append (p q : Event → Bool) (t l : List Event)
    (h : ∀ e ∈ t, p e = false ∧ q e = false) (hl : precededBy p q l = true) :
    Precedes p q (t ++ l) :=
  precedes_of_precededBy p q (t ++ l) (by rw [precededBy_append p q t l h]; exact hl)

/-- C6 (as stated) fails: in this run the call `create("/srv/new")` is made
second, and no ReadPasswordTwice call comes before it. -/
theorem runInit_password_before_create_counterexample :
    ¬ Precedes Event.isReadPasswordTwice (fun e => e.isCreate || e.isInit)
      (runInit envOk optsPlain goptsText []).trace := by
  intro h
  obtain ⟨e', he', hp⟩ := h [Event.ReadRepo] (Event.create "/srv/new")
    [Event.ReadPasswordTwice, Event.Init "alpha" none,
      Event.Verbosef "created restic repository 0123456789 at /srv/new\n",
      Event.Verbosef "\n",
      Event.Verbosef "Please note that knowledge of your password is required to access\n",
      Event.Verbosef "the repository. Losing your password means that your data is\n",
      Event.Verbosef "irrecoverably lost.\n"] (by decide) rfl
  simp only [List.mem_singleton] at he'
  subst he'
  cases hp

/-- C6 (amended): in every execution of `runInit`, every Init call comes after
a ReadPasswordTwice call (the password is collected and match-verified before
the key record and the config are written), and every ReadPasswordTwice call
comes after the backend `create` call. -/
theorem runInit_password_order (env : Env) (opts : InitOptions) (gopts : GlobalOptions)
    (args : List String) :
    Precedes Event.isReadPasswordTwice Event.isInit (runInit env opts gopts args).trace ∧
    Precedes Event.isCreate Event.isReadPasswordTwice (runInit env opts gopts args).trace := by
  have hk := maybeReadChunkerPolynomial_calls_kind env opts gopts
  rcases runInit_cases env opts gopts args with
    ⟨t, e, hm, hrun⟩ | ⟨t, p, e, hm, h1, hrun⟩ | ⟨t, p, repo, e, hm, h1, h2, _, hrun⟩ |
    ⟨t, p, repo, e, hm, h1, h2, _, hrun⟩ | ⟨t, p, repo, be, e, hm, h1, h2, h3, hrun⟩ |
    ⟨t, p, repo, be, pw, e, hm, h1, h2, h3, h4, _, hrun⟩ |
    ⟨t, p, repo, be, pw, e, hm, h1, h2, h3, h4, _, hrun⟩ |
    ⟨t, p, repo, be, pw, s, hm, h1, h2, h3, h4, h5, hrun⟩ |
    ⟨t, p, repo, be, pw, s, id, hm, h1, h2, h3, h4, h5, _, hrun⟩ |
    ⟨t, p, repo, be, pw, s, id, hm, h1, h2, h3, h4, h5, _, hrun⟩
  all_goals
    have hA : ∀ e ∈ t, e.isReadPasswordTwice = false ∧ e.isInit = false := fun e he =>
      ⟨(hk t _ hm e he).2.1, (hk t _ hm e he).2.2.1⟩
    have hB : ∀ e ∈ t, e.isCreate = false ∧ e.isReadPasswordTwice = false := fun e he =>
      ⟨(hk t _ hm e he).1, (hk t _ hm e he).2.1⟩
    rw [hrun]
    simp only [List.append_assoc]
    constructor
  all_goals first
    | exact precedes_append _ _ t _ hA (by
        simp [precededBy, Event.isReadPasswordTwice, Event.isInit, Event.isCreate, Verbosef])
    | exact precedes_append _ _ t _ hB (by
        simp [precededBy, Event.isReadPasswordTwice, Event.isInit, Event.isCreate, Verbosef])
    | simpa using precedes_append _ _ t [] hA rfl
    | simpa using precedes_append _ _ t [] hB rfl



/-- C6 (amended) at a plain `init`: the run calls Init, after
ReadPasswordTwice, which comes after create. -/
theorem runInit_password_order_witness :
    Event.Init "alpha" none ∈ (runInit envOk optsPlain goptsText []).trace ∧
    Precedes Event.isReadPasswordTwice Event.isInit
      (runInit envOk optsPlain goptsText []).trace ∧
    Precedes Event.isCreate Event.isReadPasswordTwice
      (runInit envOk optsPlain goptsText []).trace :=
  ⟨by decide, runInit_password_order envOk optsPlain goptsText []⟩

/-- A format without a percent sign is formatted as itself. -/
theorem fmt.doPrintf_of_no_percent (l : List Char) (h : '%' ∉ l) : fmt.doPrintf 0 l = l := by
  induction l with
  | nil => rfl
  | cons c cs ih =>
    have hc : c ≠ '%' := fun hc => h (by simp [hc])
    have hcs : '%' ∉ cs := fun hmem => h (by simp [hmem])
    simp [fmt.doPrintf, hc, ih hcs]

/-- The call `fmt.Sprintf(format)` returns a format without a percent sign
unchanged. -/
theorem fmt.Sprintf_of_no_percent (format : String) (h : '%' ∉ format.data) :
    fmt.Sprintf format = format := by
  unfold fmt.Sprintf
  rw [fmt.doPrintf_of_no_percent format.data h]

/-- A successful run in JSON mode whose new config has an id of at least 10
bytes, of which `id` is the first 10, returns nil, builds the record
(success, id, StripPassword(gopts.Repo)) and makes exactly one Verbosef call,
with the JSON text of that record as its format; the call emits that very
text when the text holds no percent sign. -/
theorem runInit_json_success (env : Env) (opts : InitOptions) (gopts : GlobalOptions)
    (args : List String) (s : Repository) (id : String) (hjson : gopts.JSON = true)
    (hs : StepsSucceed env opts gopts s) (hid : sliceTo s.Config.ID 10 = some id) :
    (runInit env opts gopts args).result = .returned none ∧
    (runInit env opts gopts args).status =
      some (.success "success" id (env.StripPassword gopts.Repo)) ∧
    (runInit env opts gopts args).trace.filter Event.isVerbosef =
      [Verbosef (toJSONString (.success "success" id (env.StripPassword gopts.Repo)))] ∧
    ('%' ∉ (toJSONString (.success "success" id (env.StripPassword gopts.Repo))).data →
      (runInit env opts gopts args).trace.filter Event.isVerbosef =
        [.Verbosef (toJSONString (.success "success" id (env.StripPassword gopts.Repo)))]) := by
  obtain ⟨t, pol, repo, be, password, hm, hr, hc, hp, hi⟩ := hs
  have hk := maybeReadChunkerPolynomial_calls_kind env opts gopts t _ hm
  have hfilter : t.filter Event.isVerbosef = [] := by
    rw [List.filter_eq_nil_iff]
    intro e he
    simp [(hk e he).2.2.2.1]
  have hrun : runInit env opts gopts args =
      ⟨t ++ [.ReadRepo, .create repo, .ReadPasswordTwice, .Init password pol] ++
          [Verbosef (toJSONString (.success "success" id (env.StripPassword gopts.Repo)))],
        some (.success "success" id (env.StripPassword gopts.Repo)),
        .returned none⟩ := by
    simp [runInit, hm, hr, hc, hp, hi, hjson, hid]
  have hone : (runInit env opts gopts args).trace.filter Event.isVerbosef =
      [Verbosef (toJSONString (.success "success" id (env.StripPassword gopts.Repo)))] := by
    rw [hrun]
    simp [List.filter_append, hfilter, List.filter, Event.isVerbosef, Verbosef]
  refine ⟨by rw [hrun], by rw [hrun], hone, ?_⟩
  intro hno
  rw [hone, Verbosef, fmt.Sprintf_of_no_percent _ hno]

/-- C8 (as stated) fails: in JSON mode, `init --repo2 /srv/old` without the
copy flag fails in polynomial resolution; `runInit` returns the plain fatal
error of `maybeReadChunkerPolynomial`, builds no status record and makes no
call that could write one. -/
theorem runInit_json_failure_record_counterexample :
    goptsJSON.JSON = true ∧
    (runInit envOk optsSecondaryOnly goptsJSON []).result =
      .returned (some (.fatalError
        "Secondary repository must only be specified when copying the chunker parameters")) ∧
    (runInit envOk optsSecondaryOnly goptsJSON []).status = none ∧
    (runInit envOk optsSecondaryOnly goptsJSON []).trace = [] := by
  decide

/-- C8 (amended): in JSON mode, whenever `runInit` returns an error, either
create has failed, and the run has built the one status record with status
"error_repository", the stripped repository location and the message of
that error, and returns `errors.Fatalf` of its JSON text; or Init has failed,
and the same holds with status "error_key"; or the error is the one that
polynomial resolution, ReadRepo or ReadPasswordTwice has returned, passed on
unchanged, and no status record has been built. -/
theorem runInit_json_failure (env : Env) (opts : InitOptions) (gopts : GlobalOptions)
    (args : List String) (err : GoError) (hjson : gopts.JSON = true)
    (hfail : (runInit env opts gopts args).result = .returned (some err)) :
    (∃ repo e, env.ReadRepo gopts = .ok repo ∧ env.create repo gopts.extended = .error e ∧
      (runInit env opts gopts args).status =
        some (.failure "error_repository" (env.StripPassword gopts.Repo) e.Error) ∧
      err = errors.Fatalf (toJSONString
        (.failure "error_repository" (env.StripPassword gopts.Repo) e.Error))) ∨
    (∃ be password pol e, env.Init (repository.New be) gopts.ctx password pol = .error e ∧
      (runInit env opts gopts args).status =
        some (.failure "error_key" (env.StripPassword gopts.Repo) e.Error) ∧
      err = errors.Fatalf (toJSONString
        (.failure "error_key" (env.StripPassword gopts.Repo) e.Error))) ∨
    ((runInit env opts gopts args).status = none ∧
      ((∃ t, maybeReadChunkerPolynomial env opts gopts = (t, .error err)) ∨
        env.ReadRepo gopts = .error err ∨ readPassword env gopts = .error err)) := by
  rcases runInit_cases env opts gopts args with
    ⟨t, e, hm, hrun⟩ | ⟨t, p, e, hm, h1, hrun⟩ | ⟨t, p, repo, e, hm, h1, h2, hj, hrun⟩ |
    ⟨t, p, repo, e, hm, h1, h2, hj, hrun⟩ | ⟨t, p, repo, be, e, hm, h1, h2, h3, hrun⟩ |
    ⟨t, p, repo, be, pw, e, hm, h1, h2, h3, h4, hj, hrun⟩ |
    ⟨t, p, repo, be, pw, e, hm, h1, h2, h3, h4, hj, hrun⟩ |
    ⟨t, p, repo, be, pw, s, hm, h1, h2, h3, h4, h5, hrun⟩ |
    ⟨t, p, repo, be, pw, s, id, hm, h1, h2, h3, h4, h5, hj, hrun⟩ |
    ⟨t, p, repo, be, pw, s, id, hm, h1, h2, h3, h4, h5, hj, hrun⟩
  all_goals rw [hrun] at hfail ⊢
  all_goals simp only [Outcome.returned.injEq, Option.some.injEq, reduceCtorEq] at hfail
  · subst hfail
    exact Or.inr (Or.inr ⟨rfl, Or.inl ⟨t, hm⟩⟩)
  · subst hfail
    exact Or.inr (Or.inr ⟨rfl, Or.inr (Or.inl h1)⟩)
  · rw [hjson] at hj; cases hj
  · exact Or.inl ⟨repo, e, h1, h2, rfl, hfail.symm⟩
  · subst hfail
    exact Or.inr (Or.inr ⟨rfl, Or.inr (Or.inr h3)⟩)
  · rw [hjson] at hj; cases hj
  · exact Or.inr (Or.inl ⟨be, pw, p, e, h4, rfl, hfail.symm⟩)

/-- C8 (amended) at a JSON run in which create fails with "mkdir /srv:
permission denied": the first case holds, with the record
(error_repository, /srv/new, mkdir /srv: permission denied). -/
theorem runInit_json_failure_witness :
    goptsJSON.JSON = true ∧
    (runInit envCreateFails optsPlain goptsJSON []).result =
      .returned (some (errors.Fatalf (toJSONString
        (.failure "error_repository" "/srv/new" "mkdir /srv: permission denied")))) ∧
    ((∃ repo e, envCreateFails.ReadRepo goptsJSON = .ok repo ∧
      envCreateFails.create repo goptsJSON.extended = .error e ∧
      (runInit envCreateFails optsPlain goptsJSON []).status =
        some (.failure "error_repository" (envCreateFails.StripPassword goptsJSON.Repo)
          e.Error) ∧
      errors.Fatalf (toJSONString
          (.failure "error_repository" "/srv/new" "mkdir /srv: permission denied")) =
        errors.Fatalf (toJSONString
          (.failure "error_repository" (envCreateFails.StripPassword goptsJSON.Repo)
            e.Error))) ∨
    (∃ be password pol e,
      envCreateFails.Init (repository.New be) goptsJSON.ctx password pol = .error e ∧
      (runInit envCreateFails optsPlain goptsJSON []).status =
        some (.failure "error_key" (envCreateFails.StripPassword goptsJSON.Repo) e.Error) ∧
      errors.Fatalf (toJSONString
          (.failure "error_repository" "/srv/new" "mkdir /srv: permission denied")) =
        errors.Fatalf (toJSONString
          (.failure "error_key" (envCreateFails.StripPassword goptsJSON.Repo) e.Error))) ∨
    ((runInit envCreateFails optsPlain goptsJSON []).status = none ∧
      ((∃ t, maybeReadChunkerPolynomial envCreateFails optsPlain goptsJSON =
          (t, .error (errors.Fatalf (toJSONString
            (.failure "error_repository" "/srv/new" "mkdir /srv: permission denied"))))) ∨
        envCreateFails.ReadRepo goptsJSON = .error (errors.Fatalf (toJSONString
          (.failure "error_repository" "/srv/new" "mkdir /srv: permission denied"))) ∨
        readPassword envCreateFails goptsJSON = .error (errors.Fatalf (toJSONString
          (.failure "error_repository" "/srv/new" "mkdir /srv: permission denied")))))) :=
  ⟨rfl, by decide,
    runInit_json_failure envCreateFails optsPlain goptsJSON []
      (errors.Fatalf (toJSONString
        (.failure "error_repository" "/srv/new" "mkdir /srv: permission denied"))) rfl
      (by decide)⟩

/-- C9: the error tags in JSON mode. If create fails with error `e`, `runInit`
builds the status record (error_repository, StripPassword(gopts.Repo),
e.Error()), returns `errors.Fatalf` of its JSON text, and its last call is
create: neither ReadPasswordTwice nor Init is called. If Init fails with
error `e`, the record is (error_key, StripPassword(gopts.Repo), e.Error()).
And in every run, in either mode, a failure record that `runInit` builds has
the status "error_repository" or "error_key". -/
theorem runInit_error_tags (env : Env) (opts : InitOptions) (gopts : GlobalOptions)
    (args : List String) :
    (∀ t pol repo e, gopts.JSON = true →
      maybeReadChunkerPolynomial env opts gopts = (t, .ok pol) →
      env.ReadRepo gopts = .ok repo → env.create repo gopts.extended = .error e →
      runInit env opts gopts args =
        ⟨t ++ [.ReadRepo, .create repo],
          some (.failure "error_repository" (env.StripPassword gopts.Repo) e.Error),
          .returned (some (errors.Fatalf (toJSONString
            (.failure "error_repository" (env.StripPassword gopts.Repo) e.Error))))⟩ ∧
      Event.ReadPasswordTwice ∉ (runInit env opts gopts args).trace ∧
      ∀ password p, Event.Init password p ∉ (runInit env opts gopts args).trace) ∧
    (∀ t pol repo be password e, gopts.JSON = true →
      maybeReadChunkerPolynomial env opts gopts = (t, .ok pol) →
      env.ReadRepo gopts = .ok repo → env.create repo gopts.extended = .ok be →
      readPassword env gopts = .ok password →
      env.Init (repository.New be) gopts.ctx password pol = .error e →
      runInit env opts gopts args =
        ⟨t ++ [.ReadRepo, .create repo, .ReadPasswordTwice, .Init password pol],
          some (.failure "error_key" (env.StripPassword gopts.Repo) e.Error),
          .returned (some (errors.Fatalf (toJSONString
            (.failure "error_key" (env.StripPassword gopts.Repo) e.Error))))⟩) ∧
    (∀ status repository message,
      (runInit env opts gopts args).status = some (.failure status repository message) →
      status = "error_repository" ∨ status = "error_key") := by
  have hk := maybeReadChunkerPolynomial_calls_kind env opts gopts
  refine ⟨?_, ?_, ?_⟩
  · intro t pol repo e hjson hm hr hc
    have hrun : runInit env opts gopts args =
        ⟨t ++ [.ReadRepo, .create repo],
          some (.failure "error_repository" (env.StripPassword gopts.Repo) e.Error),
          .returned (some (errors.Fatalf (toJSONString
            (.failure "error_repository" (env.StripPassword gopts.Repo) e.Error))))⟩ := by
      simp [runInit, hm, hr, hc, hjson]
    have hnoRead : Event.ReadPasswordTwice ∉ t := fun hmem =>
      (hk t _ hm _ hmem).2.2.2.2.1 rfl
    have hnoInit : ∀ password p, Event.Init password p ∉ t := fun password p hmem =>
      (hk t _ hm _ hmem).2.2.2.2.2 password p rfl
    refine ⟨hrun, ?_, ?_⟩
    · rw [hrun]; simp [hnoRead]
    · intro password p
      rw [hrun]; simp [hnoInit]
  · intro t pol repo be password e hjson hm hr hc hp hi
    simp [runInit, hm, hr, hc, hp, hi, hjson]
  · intro status repository message hs
    rcases runInit_cases env opts gopts args with
      ⟨t, e, hm, hrun⟩ | ⟨t, p, e, hm, h1, hrun⟩ | ⟨t, p, repo, e, hm, h1, h2, hj, hrun⟩ |
      ⟨t, p, repo, e, hm, h1, h2, hj, hrun⟩ | ⟨t, p, repo, be, e, hm, h1, h2, h3, hrun⟩ |
      ⟨t, p, repo, be, pw, e, hm, h1, h2, h3, h4, hj, hrun⟩ |
      ⟨t, p, repo, be, pw, e, hm, h1, h2, h3, h4, hj, hrun⟩ |
      ⟨t, p, repo, be, pw, s, hm, h1, h2, h3, h4, h5, hrun⟩ |
      ⟨t, p, repo, be, pw, s, id, hm, h1, h2, h3, h4, h5, hj, hrun⟩ |
      ⟨t, p, repo, be, pw, s, id, hm, h1, h2, h3, h4, h5, hj, hrun⟩
    all_goals rw [hrun] at hs
    all_goals simp at hs
    · exact Or.inl hs.1.symm
    · exact Or.inr hs.1.symm

/-- C9 at two JSON runs: create fails with "mkdir /srv: permission denied" in
the first, Init fails with "config file already exists" in the second. -/
theorem runInit_error_tags_witness :
    runInit envCreateFails optsPlain goptsJSON [] =
      ⟨[.ReadRepo, .create "/srv/new"],
        some (.failure "error_repository" "/srv/new" "mkdir /srv: permission denied"),
        .returned (some (errors.Fatalf (toJSONString
          (.failure "error_repository" "/srv/new" "mkdir /srv: permission denied"))))⟩ ∧
    runInit envInitFails optsPlain goptsJSON [] =
      ⟨[.ReadRepo, .create "/srv/new", .ReadPasswordTwice, .Init "alpha" none],
        some (.failure "error_key" "/srv/new" "config file already exists"),
        .returned (some (errors.Fatalf (toJSONString
          (.failure "error_key" "/srv/new" "config file already exists"))))⟩ :=
  ⟨((runInit_error_tags envCreateFails optsPlain goptsJSON []).1 [] none "/srv/new"
      (.plain "mkdir /srv: permission denied") rfl rfl rfl rfl).1,
    (runInit_error_tags envInitFails optsPlain goptsJSON []).2.1 [] none "/srv/new"
      ⟨"/srv/new"⟩ "alpha" (.plain "config file already exists") rfl rfl rfl rfl rfl rfl⟩

/-- C7 fails on the code at `-r /srv/my%20repo --json`: the run succeeds and
builds the record (success, 0123456789, /srv/my%20repo), whose JSON text
holds the repository "/srv/my%20repo"; but the one Verbosef call formats that
text as a printf format, and what it emits holds the repository
"/srv/my%!r(MISSING)epo". -/
theorem runInit_success_record_percent :
    10 ≤ "0123456789abcdef0123456789abcdef0123456789abcdef0123456789abcdef".length ∧
    (runInit envOk optsPlain goptsPercent []).result = .returned none ∧
    (runInit envOk optsPlain goptsPercent []).status =
      some (.success "success" "0123456789" "/srv/my%20repo") ∧
    toJSONString (.success "success" "0123456789" "/srv/my%20repo") =
      "\x7b\"status\":\"success\",\"id\":\"0123456789\",\"repository\":\"/srv/my%20repo\"\x7d\n" ∧
    (runInit envOk optsPlain goptsPercent []).trace.filter Event.isVerbosef =
      [.Verbosef
        "\x7b\"status\":\"success\",\"id\":\"0123456789\",\"repository\":\"/srv/my%!r(MISSING)epo\"\x7d\n"] := by
  decide

/-- C10 fails on the code at `-r /srv/my%20repo --json` when create fails: the
record built is (error_repository, /srv/my%20repo, mkdir /srv: permission
denied), but the text of the error `runInit` returns is not
`toJSONString(record)`: `errors.Fatalf` has read "%20r" as a verb without an
operand and written "%!r(MISSING)" in its place. -/
theorem runInit_emitted_text_percent :
    (runInit envCreateFails optsPlain goptsPercent []).status =
      some (.failure "error_repository" "/srv/my%20repo" "mkdir /srv: permission denied") ∧
    toJSONString
        (.failure "error_repository" "/srv/my%20repo" "mkdir /srv: permission denied") =
      "\x7b\"status\":\"error_repository\",\"repository\":\"/srv/my%20repo\",\"message\":\"mkdir /srv: permission denied\"\x7d\n" ∧
    (runInit envCreateFails optsPlain goptsPercent []).result =
      .returned (some (.fatalError
        "\x7b\"status\":\"error_repository\",\"repository\":\"/srv/my%!r(MISSING)epo\",\"message\":\"mkdir /srv: permission denied\"\x7d\n")) := by
  decide

end Restic
